import Mathlib

/-!
Generators and consumers of stdext: a shallow embedding of `include/stdext/consumer.h` and
`include/stdext/generator.h`.

* A consumer writes through an output cursor.  The target of the cursor is a buffer
  (`List α`), a cursor is a position (`Nat`) in it, and the assignment `*p = v` is a checked
  write: it is `none` when `p` is not a slot of the buffer (undefined behaviour in C++).
* A generator reads through an input cursor.  The class templates are parametric in the cursor
  type, and so are the structures below: the operations a template uses on its cursor
  (`*i`, `++i`) are the fields of the class `Cursor`.  `seq_cursor` is the cursor of a finite
  sequence (`begin(xs)`, `end(xs)`); its dereference is a checked read.
* A zero-argument function object is a state together with its call operator
  `σ → α × σ` (the value returned and the state after the call).
* A member function that mutates the object returns the object after the call; a `const`
  member function (`operator *`, `operator bool`, `operator ==`) is a function of the object
  that returns only its result.
* A member function that is ill-formed has no value: its result is `none`.  Overload
  selection is a function of the facts about the argument type that the template guards
  (`REQUIRES`) and name lookup depend on.  Value categories have no counterpart here.
-/

namespace stdext

/-! ## Output cursors into a buffer -/

/-- Checked slot write `*p = v`: defined only when `p` is a slot of the buffer. -/
def assign_slot {α : Type} (buf : List α) (p : Nat) (v : α) : Option (List α) :=
  if p < buf.length then some (buf.set p v) else none

/-! ## consumer.h -/

/-- Class `iterator_consumer<Iterator>`: the private member `i`, with the buffer it points
into. -/
structure iterator_consumer (α : Type) where
  buf : List α
  i : Nat
deriving DecidableEq, Repr

/-- Member `iterator_consumer::operator()`: `*i++ = value; return true;`. -/
def iterator_consumer.operator_call {α : Type} (c : iterator_consumer α) (value : α) :
    Option (Bool × iterator_consumer α) :=
  match assign_slot c.buf c.i value with
  | none => none
  | some b => some (true, { buf := b, i := c.i + 1 })

/-- Class `delimited_iterator_consumer<Iterator, Sentinel>`: the private members `i` and `j`,
with the buffer `i` points into. -/
structure delimited_iterator_consumer (α : Type) where
  buf : List α
  i : Nat
  j : Nat
deriving DecidableEq, Repr

/-- Member `delimited_iterator_consumer::operator()`:
`if (i == j) return false; *i++ = value; return true;`. -/
def delimited_iterator_consumer.operator_call {α : Type} (c : delimited_iterator_consumer α)
    (value : α) : Option (Bool × delimited_iterator_consumer α) :=
  if c.i = c.j then some (false, c)
  else
    match assign_slot c.buf c.i value with
    | none => none
    | some b => some (true, { buf := b, i := c.i + 1, j := c.j })

/-- Function `make_consumer(Iterator&& i)`: the unbounded consumer writing at `i`. -/
def make_consumer {α : Type} (buf : List α) (i : Nat) : iterator_consumer α :=
  { buf := buf, i := i }

/-- Function `make_consumer(Iterator&& i, Sentinel&& j)`: the bounded consumer writing at `i`
and stopping at `j`. -/
def make_consumer_delimited {α : Type} (buf : List α) (i j : Nat) :
    delimited_iterator_consumer α :=
  { buf := buf, i := i, j := j }

/-- Offering the values of a list in order to an unbounded consumer: the results of the calls
and the consumer afterwards. -/
def iterator_consumer.offer_all {α : Type} (c : iterator_consumer α) :
    List α → Option (List Bool × iterator_consumer α)
  | [] => some ([], c)
  | v :: vs =>
    match c.operator_call v with
    | none => none
    | some (r, c1) =>
      match offer_all c1 vs with
      | none => none
      | some (rs, c2) => some (r :: rs, c2)

/-- Offering the values of a list in order to a bounded consumer: the results of the calls
and the consumer afterwards. -/
def delimited_iterator_consumer.offer_all {α : Type} (c : delimited_iterator_consumer α) :
    List α → Option (List Bool × delimited_iterator_consumer α)
  | [] => some ([], c)
  | v :: vs =>
    match c.operator_call v with
    | none => none
    | some (r, c1) =>
      match offer_all c1 vs with
      | none => none
      | some (rs, c2) => some (r :: rs, c2)

/-- The positions written by offering the values of a list in order to a bounded consumer:
the cursor held before each call that returned true. -/
def delimited_iterator_consumer.write_positions {α : Type}
    (c : delimited_iterator_consumer α) : List α → Option (List Nat)
  | [] => some []
  | v :: vs =>
    match c.operator_call v with
    | none => none
    | some (true, c1) =>
      match write_positions c1 vs with
      | none => none
      | some ps => some (c.i :: ps)
    | some (false, c1) => write_positions c1 vs

/-! ## Input cursors -/

/-- The operations the generator templates use on the cursor they wrap: `deref` is `*i`
(`none` where `i` cannot be dereferenced) and `next` is `++i`. -/
class Cursor (κ : Type) (α : outParam Type) where
  deref : κ → Option α
  next : κ → κ

/-- The comparison `i == j` of a cursor with a sentinel (`is_equality_comparable`); `i != j`
is its negation. -/
class EqualityComparable (κ ς : Type) where
  eq : κ → ς → Bool

instance instEqualityComparableSelf {κ : Type} [BEq κ] : EqualityComparable κ κ where
  eq a b := a == b

/-- Cursor of a finite sequence: the sequence and a position in it. -/
structure seq_cursor (α : Type) where
  data : List α
  pos : Nat
deriving DecidableEq, Repr

instance instCursorSeqCursor {α : Type} : Cursor (seq_cursor α) α where
  deref c := c.data[c.pos]?
  next c := { data := c.data, pos := c.pos + 1 }

/-- The cursor `begin(xs)`. -/
def seq_begin {α : Type} (xs : List α) : seq_cursor α :=
  { data := xs, pos := 0 }

/-- The cursor `end(xs)`. -/
def seq_end {α : Type} (xs : List α) : seq_cursor α :=
  { data := xs, pos := xs.length }

/-! ## Function objects -/

/-- A zero-argument function object `f`: `call` is `f()`, giving the value returned and the
function object after the call. -/
class Callable (σ : Type) (α : outParam Type) where
  call : σ → α × σ

/-- The function object after `k` calls. -/
def Callable.after {σ α : Type} [Callable σ α] (f : σ) : Nat → σ
  | 0 => f
  | k + 1 => (Callable.call (Callable.after f k)).2

/-- The value `v_k` returned by call number `k` (from 0) of `f`. -/
def Callable.nth_value {σ α : Type} [Callable σ α] (f : σ) (k : Nat) : α :=
  (Callable.call (Callable.after f k)).1

/-- A counter function object: each call returns the count and increments it by 1. -/
structure counter where
  n : Nat
deriving DecidableEq, Repr

instance instCallableCounter : Callable counter Nat where
  call c := (c.n, { n := c.n + 1 })

/-- A function object instrumented with the number of times it has been invoked. -/
structure counted (σ : Type) where
  inner : σ
  calls : Nat
deriving DecidableEq, Repr

instance instCallableCounted {σ α : Type} [Callable σ α] : Callable (counted σ) α where
  call c := ((Callable.call c.inner).1, { inner := (Callable.call c.inner).2, calls := c.calls + 1 })

/-! ## generator.h -/

/-- Class `iterator_generator<Iterator>`: the private member `i`. -/
structure iterator_generator (κ : Type) where
  i : κ
deriving DecidableEq, Repr

/-- Friend `operator ==` of `iterator_generator`: `a.i == b.i`. -/
def iterator_generator.operator_eq {κ : Type} [BEq κ] (a b : iterator_generator κ) : Bool :=
  a.i == b.i

/-- Friend `operator !=` of `iterator_generator`: `!(a == b)`. -/
def iterator_generator.operator_ne {κ : Type} [BEq κ] (a b : iterator_generator κ) : Bool :=
  !(a.operator_eq b)

/-- Member `iterator_generator::operator *`: `*i`. -/
def iterator_generator.operator_deref {κ α : Type} [Cursor κ α] (g : iterator_generator κ) :
    Option α :=
  Cursor.deref g.i

/-- Member `iterator_generator::operator ++ ()`: `++i; return *this;`. -/
def iterator_generator.operator_inc {κ α : Type} [Cursor κ α] (g : iterator_generator κ) :
    iterator_generator κ :=
  { i := Cursor.next g.i }

/-- Member `iterator_generator::operator ++ (int)`: `return i++;`, the cursor before the
advance together with the generator after it. -/
def iterator_generator.operator_postinc {κ α : Type} [Cursor κ α] (g : iterator_generator κ) :
    κ × iterator_generator κ :=
  (g.i, { i := Cursor.next g.i })

/-- Member `iterator_generator::operator bool`: `true`. -/
def iterator_generator.operator_bool {κ : Type} (_g : iterator_generator κ) : Bool :=
  true

/-- Class `delimited_iterator_generator<Iterator, Sentinel>`: the base class
`iterator_generator<Iterator>` and the private member `j`. -/
structure delimited_iterator_generator (κ ς : Type) extends iterator_generator κ where
  j : ς
deriving DecidableEq, Repr

/-- Access of a class member. -/
inductive member_access where
  | pub
  | prot
  | priv
deriving DecidableEq, Repr

/-- Whether a member function of a derived class can name a member of its base class that
has the given access there. -/
def member_access.named_in_derived : member_access → Bool
  | member_access.pub => true
  | member_access.prot => true
  | member_access.priv => false

/-- Access of the data member `i` of `iterator_generator`: it is declared under `private:`
(generator.h:127-128). -/
def iterator_generator.i_access : member_access :=
  member_access.priv

/-- Member `delimited_iterator_generator::operator bool`: `return i != j;`, where `i` is the
data member of the base class `iterator_generator`.  The function has a value only if `i` can
be named in the derived class; otherwise it is ill-formed wherever it is instantiated, which
is `none`. -/
def delimited_iterator_generator.operator_bool {κ ς : Type} [EqualityComparable κ ς]
    (g : delimited_iterator_generator κ ς) : Option Bool :=
  if iterator_generator.i_access.named_in_derived then
    some (!(EqualityComparable.eq g.i g.j))
  else none

/-- Inherited member `operator *` on a `delimited_iterator_generator`. -/
def delimited_iterator_generator.operator_deref {κ ς α : Type} [Cursor κ α]
    (g : delimited_iterator_generator κ ς) : Option α :=
  g.toiterator_generator.operator_deref

/-- Inherited member `operator ++ ()` on a `delimited_iterator_generator`: the base part
advances, `j` is untouched. -/
def delimited_iterator_generator.operator_inc {κ ς α : Type} [Cursor κ α]
    (g : delimited_iterator_generator κ ς) : delimited_iterator_generator κ ς :=
  { toiterator_generator := g.toiterator_generator.operator_inc, j := g.j }

/-- Inherited friend `operator ==` on two `delimited_iterator_generator`s: both convert to
the base class. -/
def delimited_iterator_generator.operator_eq {κ ς : Type} [BEq κ]
    (a b : delimited_iterator_generator κ ς) : Bool :=
  a.toiterator_generator.operator_eq b.toiterator_generator

/-- Class `function_generator<Function>`: the private members `f` and `value`. -/
structure function_generator (σ α : Type) where
  f : σ
  value : α
deriving DecidableEq, Repr

/-- Constructor `function_generator(const Function& f) : f(f), value(this->f())`. -/
def function_generator.ctor {σ α : Type} [Callable σ α] (f : σ) : function_generator σ α :=
  { f := (Callable.call f).2, value := (Callable.call f).1 }

/-- Friend `operator ==` of `function_generator`: `a.f == b.f && a.value == b.value`. -/
def function_generator.operator_eq {σ α : Type} [BEq σ] [BEq α]
    (a b : function_generator σ α) : Bool :=
  a.f == b.f && a.value == b.value

/-- Friend `operator !=` of `function_generator`: `!(a == b)`. -/
def function_generator.operator_ne {σ α : Type} [BEq σ] [BEq α]
    (a b : function_generator σ α) : Bool :=
  !(a.operator_eq b)

/-- Member `function_generator::operator *`: `return value;`. -/
def function_generator.operator_deref {σ α : Type} (g : function_generator σ α) : α :=
  g.value

/-- Member `function_generator::operator ++ ()`: `value = f(); return *this;`. -/
def function_generator.operator_inc {σ α : Type} [Callable σ α] (g : function_generator σ α) :
    function_generator σ α :=
  { f := (Callable.call g.f).2, value := (Callable.call g.f).1 }

/-- Member `function_generator::operator bool`: `true`. -/
def function_generator.operator_bool {σ α : Type} (_g : function_generator σ α) : Bool :=
  true

/-- Class `constant_generator<T>`: the private member `v`. -/
structure constant_generator (α : Type) where
  v : α
deriving DecidableEq, Repr

/-- Friend `operator ==` of `constant_generator`: `a.v == b.v`. -/
def constant_generator.operator_eq {α : Type} [BEq α] (a b : constant_generator α) : Bool :=
  a.v == b.v

/-- Member `constant_generator::operator *`: `return v;`. -/
def constant_generator.operator_deref {α : Type} (g : constant_generator α) : α :=
  g.v

/-- Member `constant_generator::operator ++ ()`: `return *this;`. -/
def constant_generator.operator_inc {α : Type} (g : constant_generator α) :
    constant_generator α :=
  g

/-- Member `constant_generator::operator ++ (int)`: `return *this;`, the copy returned
together with the generator after the call. -/
def constant_generator.operator_postinc {α : Type} (g : constant_generator α) :
    constant_generator α × constant_generator α :=
  (g, g)

/-- Member `constant_generator::operator bool`: `true`. -/
def constant_generator.operator_bool {α : Type} (_g : constant_generator α) : Bool :=
  true

/-- Class `terminated_generator<Iterator, TerminationPredicate>`: the private members `i`
and `term`. -/
structure terminated_generator (κ α : Type) where
  i : κ
  term : α → Bool

/-- Member `terminated_generator::operator *`: `*i`. -/
def terminated_generator.operator_deref {κ α : Type} [Cursor κ α]
    (g : terminated_generator κ α) : Option α :=
  Cursor.deref g.i

/-- Member `terminated_generator::operator ++ ()`: `++i; return *this;`. -/
def terminated_generator.operator_inc {κ α : Type} [Cursor κ α]
    (g : terminated_generator κ α) : terminated_generator κ α :=
  { i := Cursor.next g.i, term := g.term }

/-- Member `terminated_generator::operator ++ (int)`: `return i++;`. -/
def terminated_generator.operator_postinc {κ α : Type} [Cursor κ α]
    (g : terminated_generator κ α) : κ × terminated_generator κ α :=
  (g.i, { i := Cursor.next g.i, term := g.term })

/-- Member `terminated_generator::operator bool`: `!term(*i)`; `none` where `i` cannot be
dereferenced. -/
def terminated_generator.operator_bool {κ α : Type} [Cursor κ α]
    (g : terminated_generator κ α) : Option Bool :=
  match Cursor.deref g.i with
  | none => none
  | some x => some (!g.term x)

/-- Function `make_generator(Iterator&& i)`. -/
def make_generator {κ : Type} (i : κ) : iterator_generator κ :=
  { i := i }

/-- Function `make_generator(Iterator&& i, Sentinel&& j)`. -/
def make_generator_delimited {κ ς : Type} (i : κ) (j : ς) : delimited_iterator_generator κ ς :=
  { i := i, j := j }

/-- Function `make_generator(Function&& function)`. -/
def make_generator_function {σ α : Type} [Callable σ α] (function : σ) :
    function_generator σ α :=
  function_generator.ctor function

/-- Function `make_constant_generator(T&& v)`. -/
def make_constant_generator {α : Type} (v : α) : constant_generator α :=
  { v := v }

/-- Function `make_terminated_generator(Iterator&& i, TerminationPredicate&& term)`. -/
def make_terminated_generator {κ α : Type} (i : κ) (term : α → Bool) :
    terminated_generator κ α :=
  { i := i, term := term }

/-! ## Driving a generator by the protocol -/

/-- The sentinel-bounded generator after `k` advances `++g`. -/
def delimited_iterator_generator.inc_n {κ ς α : Type} [Cursor κ α]
    (g : delimited_iterator_generator κ ς) : Nat → delimited_iterator_generator κ ς
  | 0 => g
  | k + 1 => (inc_n g k).operator_inc

/-- The callable-backed generator after `k` advances `++g`. -/
def function_generator.inc_n {σ α : Type} [Callable σ α] (g : function_generator σ α) :
    Nat → function_generator σ α
  | 0 => g
  | k + 1 => (inc_n g k).operator_inc

/-- The predicate-terminated generator after `k` advances `++g`. -/
def terminated_generator.inc_n {κ α : Type} [Cursor κ α] (g : terminated_generator κ α) :
    Nat → terminated_generator κ α
  | 0 => g
  | k + 1 => (inc_n g k).operator_inc

/-- One way of advancing a generator: `++g` or `g++`. -/
inductive advance_kind where
  | pre
  | post
deriving DecidableEq, Repr

/-- The constant generator after one advance of the given kind. -/
def constant_generator.advance {α : Type} (g : constant_generator α) :
    advance_kind → constant_generator α
  | advance_kind.pre => g.operator_inc
  | advance_kind.post => g.operator_postinc.2

/-- The constant generator after a list of advances, in order. -/
def constant_generator.advance_all {α : Type} (g : constant_generator α) :
    List advance_kind → constant_generator α
  | [] => g
  | a :: as => (g.advance a).advance_all as

/-- The protocol loop `while (g) { x = *g; ++g; }` on a predicate-terminated generator: the
values read, in order.  It is `none` when a cursor that cannot be dereferenced is read, or
when the loop has not ended after `fuel` tests of `g`. -/
def terminated_generator.drain {κ α : Type} [Cursor κ α] :
    Nat → terminated_generator κ α → Option (List α)
  | 0, _ => none
  | fuel + 1, g =>
    match g.operator_bool with
    | none => none
    | some false => some []
    | some true =>
      match g.operator_deref with
      | none => none
      | some x =>
        match drain fuel g.operator_inc with
        | none => none
        | some xs => some (x :: xs)

/-- The protocol loop `while (g) { r = c(*g); ++g; }` from a sentinel-bounded generator into
a bounded consumer: the results of the offers, the generator and the consumer afterwards.  It
is `none` when the test of `g` has no value, when a read or a write is out of range, or when
the loop has not ended after `fuel` tests of `g`. -/
def pump {κ ς α : Type} [Cursor κ α] [EqualityComparable κ ς] :
    Nat → delimited_iterator_generator κ ς → delimited_iterator_consumer α →
      Option (List Bool × delimited_iterator_generator κ ς × delimited_iterator_consumer α)
  | 0, _, _ => none
  | fuel + 1, g, c =>
    match g.operator_bool with
    | none => none
    | some false => some ([], g, c)
    | some true =>
      match g.operator_deref with
      | none => none
      | some x =>
        match c.operator_call x with
        | none => none
        | some (r, c1) =>
          match pump fuel g.operator_inc c1 with
          | none => none
          | some (rs, g2, c2) => some (r :: rs, g2, c2)

/-- The unbounded cursor-backed generator after `k` advances `++g`. -/
def iterator_generator.inc_n {κ α : Type} [Cursor κ α] (g : iterator_generator κ) :
    Nat → iterator_generator κ
  | 0 => g
  | k + 1 => (inc_n g k).operator_inc

/-- The cycle `x = *g; ++g;` run `k` times on an unbounded cursor-backed generator: the values
read, in order, and the generator afterwards.  It is `none` when a cursor that cannot be
dereferenced is read. -/
def iterator_generator.cycles {κ α : Type} [Cursor κ α] :
    Nat → iterator_generator κ → Option (List α × iterator_generator κ)
  | 0, g => some ([], g)
  | k + 1, g =>
    match g.operator_deref with
    | none => none
    | some x =>
      match cycles k g.operator_inc with
      | none => none
      | some (xs, g1) => some (x :: xs, g1)

/-- Member `function_generator::operator ++ (int)`:
`iterator_proxy<function_generator> proxy(value); ++*this; return proxy;`.  The class
template `iterator_proxy` comes from `iterator.h`; its constructor from a value is the
argument `proxy`. -/
def function_generator.operator_postinc {σ α π : Type} [Callable σ α] (proxy : α → π)
    (g : function_generator σ α) : π × function_generator σ α :=
  (proxy g.value, g.operator_inc)

/-! ## Capability traits and overload selection -/

/-- The capability facts of an argument type that the guards test: `is_iterator<T>`
(`iterator.h`), `is_generator<T>` (the type declares `generator_category`) and
`is_callable<T>` (`concept.h`, callable with no argument). -/
structure capabilities where
  is_iterator : Bool
  is_generator : Bool
  is_callable : Bool
deriving DecidableEq, Repr

/-- Outcome of overload resolution among function templates with the same parameter list:
the one candidate that is enabled, or no value when several are (the call is ambiguous) or
none is (no matching function). -/
inductive resolution (β : Type) where
  | selected (b : β)
  | ambiguous
  | no_match
deriving DecidableEq, Repr

/-- Overload resolution among the enabled candidates. -/
def resolve {β : Type} : List β → resolution β
  | [] => resolution.no_match
  | [b] => resolution.selected b
  | _ :: _ :: _ => resolution.ambiguous

/-- The two one-argument overloads of `make_generator`. -/
inductive make_generator_overload where
  | cursor_backed
  | callable_backed
deriving DecidableEq, Repr

/-- Modelled from the spec: the macro `REQUIRES` of `concept.h` is missing; an overload takes
part in overload selection exactly when the condition in its `REQUIRES` holds.  The
conditions are those of `make_generator(Iterator&&)`,
`is_iterator<...>::value && !is_generator<...>::value`, and of `make_generator(Function&&)`,
`is_callable<...>::value`. -/
def make_generator_overload.enabled (t : capabilities) : make_generator_overload → Bool
  | make_generator_overload.cursor_backed => t.is_iterator && !t.is_generator
  | make_generator_overload.callable_backed => t.is_callable

/-- The one-argument overloads of `make_generator` enabled for an argument type. -/
def make_generator_candidates (t : capabilities) : List make_generator_overload :=
  [make_generator_overload.cursor_backed, make_generator_overload.callable_backed].filter
    (make_generator_overload.enabled t)

/-- An argument type as the traits see it: the capability facts that the guards test, and
whether namespace `stdext` is an associated namespace of the type.  `make_generator` is named
in `is_generator_adaptable` (generator.h:29) and in `as_generator` (:49) before its
declarations (:293-310), so there only argument-dependent lookup finds it. -/
structure argument_type where
  facts : capabilities
  in_stdext : Bool
deriving DecidableEq, Repr

/-- The one-argument overloads of `make_generator` that a call written before their
declarations can select from: those that argument-dependent lookup finds, all of them when it
reaches namespace `stdext` and none otherwise, and of these the enabled ones. -/
def make_generator_found (t : argument_type) : List make_generator_overload :=
  if t.in_stdext then make_generator_candidates t.facts else []

/-- Trait `is_generator<T>`. -/
def is_generator (t : argument_type) : Bool :=
  t.facts.is_generator

/-- Trait `is_generator_adaptable<T>`: the expression `make_generator(declval<U&>())`,
written at generator.h:29, is well formed, that is, lookup and overload resolution of the
call select a function. -/
def is_generator_adaptable (t : argument_type) : Bool :=
  match resolve (make_generator_found t) with
  | resolution.selected _ => true
  | resolution.ambiguous => false
  | resolution.no_match => false

/-- Trait `can_generate<T>`: `is_generator<T>::value || is_generator_adaptable<T>::value`. -/
def can_generate (t : argument_type) : Bool :=
  is_generator t || is_generator_adaptable t

/-- The two overloads of `as_generator`. -/
inductive as_generator_overload where
  | forward
  | adapt
deriving DecidableEq, Repr

/-- The conditions in the `REQUIRES` of the two overloads of `as_generator`:
`is_generator<...>::value` and `is_generator_adaptable<...>::value`. -/
def as_generator_overload.enabled (t : argument_type) : as_generator_overload → Bool
  | as_generator_overload.forward => is_generator t
  | as_generator_overload.adapt => is_generator_adaptable t

/-- The overloads of `as_generator` enabled for an argument type. -/
def as_generator_candidates (t : argument_type) : List as_generator_overload :=
  [as_generator_overload.forward, as_generator_overload.adapt].filter
    (as_generator_overload.enabled t)

/-- Function `as_generator(T&& g)` on an argument `g` of type `t`, where `make` is
`make_generator` on that type: the first overload is `return std::forward<T>(g);` (left
summand, the argument itself), the second is `return make_generator(std::forward<T>(g));`
(right summand). -/
def as_generator {X G : Type} (t : argument_type) (make : X → G) (g : X) :
    resolution (X ⊕ G) :=
  match resolve (as_generator_candidates t) with
  | resolution.selected as_generator_overload.forward => resolution.selected (Sum.inl g)
  | resolution.selected as_generator_overload.adapt => resolution.selected (Sum.inr (make g))
  | resolution.ambiguous => resolution.ambiguous
  | resolution.no_match => resolution.no_match

/-- A test input: a type that is a native generator (it declares `iterator_category` and
`generator_category`) and also has a zero-argument call operator, which returns the count and
increments it. -/
structure callable_generator where
  n : Nat
deriving DecidableEq, Repr

instance instCallableCallableGenerator : Callable callable_generator Nat where
  call c := (c.n, { n := c.n + 1 })

/-- The capability facts of `callable_generator`. -/
def callable_generator.capabilities : capabilities :=
  { is_iterator := true, is_generator := true, is_callable := true }

/-- The type `callable_generator` declared in namespace `stdext`. -/
def callable_generator.in_stdext : argument_type :=
  { facts := callable_generator.capabilities, in_stdext := true }

/-- The type `callable_generator` declared outside namespace `stdext`. -/
def callable_generator.outside_stdext : argument_type :=
  { facts := callable_generator.capabilities, in_stdext := false }

/-- A test input: the pointer type `const int*`, an iterator that is neither a native
generator nor callable and has no associated namespace. -/
def pointer_cursor : argument_type :=
  { facts := { is_iterator := true, is_generator := false, is_callable := false },
    in_stdext := false }

/-- A test input type that is an iterator, not a native generator, and a zero-argument
callable: its capability facts. -/
def callable_iterator_capabilities : capabilities :=
  { is_iterator := true, is_generator := false, is_callable := true }

/-! ## Theorems -/

/-! ### Lemmas on the checked write and on a single call -/

theorem assign_slot_of_lt {α : Type} (buf : List α) (p : Nat) (v : α) (h : p < buf.length) :
    assign_slot buf p v = some (buf.set p v) := by
  simp [assign_slot, h]

theorem assign_slot_of_ge {α : Type} (buf : List α) (p : Nat) (v : α) (h : buf.length ≤ p) :
    assign_slot buf p v = none := by
  simp [assign_slot, Nat.not_lt.mpr h]

theorem delimited_call_full {α : Type} (c : delimited_iterator_consumer α) (v : α)
    (h : c.i = c.j) : c.operator_call v = some (false, c) := by
  simp [delimited_iterator_consumer.operator_call, h]

theorem delimited_call_room {α : Type} (c : delimited_iterator_consumer α) (v : α)
    (h : c.i ≠ c.j) (hlt : c.i < c.buf.length) :
    c.operator_call v = some (true, { buf := c.buf.set c.i v, i := c.i + 1, j := c.j }) := by
  simp [delimited_iterator_consumer.operator_call, assign_slot_of_lt, h, hlt]

theorem iterator_call_room {α : Type} (c : iterator_consumer α) (v : α)
    (hlt : c.i < c.buf.length) :
    c.operator_call v = some (true, { buf := c.buf.set c.i v, i := c.i + 1 }) := by
  simp [iterator_consumer.operator_call, assign_slot_of_lt, hlt]

theorem take_succ_set_self {α : Type} (buf : List α) (i : Nat) (v : α) (h : i < buf.length) :
    (buf.set i v).take (i + 1) = buf.take i ++ [v] := by
  apply List.ext_getElem?
  intro k
  rw [List.getElem?_take]
  by_cases hk : k < i
  · rw [if_pos (by omega), List.getElem?_set_ne (by omega),
      List.getElem?_append_left (by simp; omega), List.getElem?_take_of_lt hk]
  · by_cases hki : k = i
    · subst hki
      rw [if_pos (by omega), List.getElem?_set_self h,
        List.getElem?_append_right (by simp), List.length_take,
        Nat.min_eq_left (Nat.le_of_lt h)]
      simp
    · rw [if_neg (by omega), List.getElem?_eq_none]
      simp
      omega

/-! ### Bounded consumer: a list of offers -/

theorem delimited_offer_all_aux {α : Type} (vs : List α) :
    ∀ (c : delimited_iterator_consumer α) (N : Nat), c.j = c.i + N → c.j ≤ c.buf.length →
      c.offer_all vs = some
        (List.replicate (min vs.length N) true ++ List.replicate (vs.length - N) false,
          { buf := c.buf.take c.i ++ vs.take N ++ c.buf.drop (c.i + min vs.length N),
            i := c.i + min vs.length N, j := c.j }) := by
  induction vs with
  | nil =>
    intro c N _ _
    simp [delimited_iterator_consumer.offer_all]
  | cons v vs ih =>
    intro c N hj hb
    cases N with
    | zero =>
      have hij : c.i = c.j := by omega
      have hcall := delimited_call_full c v hij
      have := ih c 0 hj hb
      simp [delimited_iterator_consumer.offer_all, hcall, this, List.replicate_succ]
    | succ n =>
      have hne : c.i ≠ c.j := by omega
      have hlt : c.i < c.buf.length := by omega
      have hcall := delimited_call_room c v hne hlt
      have := ih { buf := c.buf.set c.i v, i := c.i + 1, j := c.j } n
        (by simp; omega) (by simp; omega)
      simp only [delimited_iterator_consumer.offer_all, hcall, this]
      have hd : (c.buf.set c.i v).drop (c.i + 1 + min vs.length n)
          = c.buf.drop (c.i + 1 + min vs.length n) :=
        List.drop_set_of_lt v c.buf (by omega)
      rw [hd, take_succ_set_self c.buf c.i v hlt]
      simp [Nat.succ_min_succ, List.replicate_succ, Nat.add_assoc, Nat.add_comm 1]

/-! ### Unbounded consumer: a list of offers -/

theorem iterator_call_true {α : Type} (c : iterator_consumer α) (v : α) (r : Bool)
    (c1 : iterator_consumer α) (h : c.operator_call v = some (r, c1)) : r = true := by
  unfold iterator_consumer.operator_call at h
  cases hs : assign_slot c.buf c.i v with
  | none => simp [hs] at h
  | some b =>
    simp [hs] at h
    exact h.1

theorem iterator_offer_all_aux {α : Type} (vs : List α) :
    ∀ (c : iterator_consumer α), c.i + vs.length ≤ c.buf.length →
      c.offer_all vs = some
        (List.replicate vs.length true,
          { buf := c.buf.take c.i ++ vs ++ c.buf.drop (c.i + vs.length),
            i := c.i + vs.length }) := by
  induction vs with
  | nil =>
    intro c _
    simp [iterator_consumer.offer_all]
  | cons v vs ih =>
    intro c hb
    have hlen : (v :: vs).length = vs.length + 1 := rfl
    have hlt : c.i < c.buf.length := by omega
    have hcall := iterator_call_room c v hlt
    have := ih { buf := c.buf.set c.i v, i := c.i + 1 } (by simp; omega)
    simp only [iterator_consumer.offer_all, hcall, this]
    have hd : (c.buf.set c.i v).drop (c.i + 1 + vs.length)
        = c.buf.drop (c.i + 1 + vs.length) :=
      List.drop_set_of_lt v c.buf (by omega)
    rw [hd, take_succ_set_self c.buf c.i v hlt]
    simp [List.replicate_succ, Nat.add_assoc, Nat.add_comm 1]

/-! ### A rejecting consumer keeps rejecting -/

theorem delimited_call_false_inv {α : Type} (c c1 : delimited_iterator_consumer α) (v : α)
    (h : c.operator_call v = some (false, c1)) : c.i = c.j ∧ c1 = c := by
  unfold delimited_iterator_consumer.operator_call at h
  by_cases hij : c.i = c.j
  · simp [hij] at h
    exact ⟨hij, h.symm⟩
  · cases hs : assign_slot c.buf c.i v with
    | none => simp [hij, hs] at h
    | some b => simp [hij, hs] at h

theorem delimited_offer_all_full {α : Type} (c : delimited_iterator_consumer α)
    (h : c.i = c.j) (vs : List α) :
    c.offer_all vs = some (List.replicate vs.length false, c) := by
  induction vs with
  | nil => simp [delimited_iterator_consumer.offer_all]
  | cons v vs ih =>
    simp [delimited_iterator_consumer.offer_all, delimited_call_full c v h, ih,
      List.replicate_succ]

/-! ### Sentinel-bounded generator over a sequence -/

theorem delimited_operator_bool_none {κ ς : Type} [EqualityComparable κ ς]
    (g : delimited_iterator_generator κ ς) : g.operator_bool = none := rfl

theorem pump_none {κ ς α : Type} [Cursor κ α] [EqualityComparable κ ς] (fuel : Nat)
    (g : delimited_iterator_generator κ ς) (c : delimited_iterator_consumer α) :
    pump fuel g c = none := by
  cases fuel with
  | zero => rfl
  | succ fuel => simp [pump, delimited_operator_bool_none]

/-! ### Callable-backed generator -/

theorem function_inc_n_ctor {σ α : Type} [Callable σ α] (f : σ) (k : Nat) :
    (function_generator.ctor f).inc_n k
      = { f := Callable.after f (k + 1), value := Callable.nth_value f k } := by
  induction k with
  | zero => rfl
  | succ k ih =>
    simp only [function_generator.inc_n, ih]
    rfl

theorem counted_after {σ α : Type} [Callable σ α] (f : σ) (n k : Nat) :
    Callable.after ({ inner := f, calls := n } : counted σ) k
      = { inner := Callable.after f k, calls := n + k } := by
  induction k with
  | zero => rfl
  | succ k ih =>
    simp only [Callable.after, ih]
    rfl

theorem counted_nth_value {σ α : Type} [Callable σ α] (f : σ) (n k : Nat) :
    Callable.nth_value ({ inner := f, calls := n } : counted σ) k = Callable.nth_value f k := by
  simp only [Callable.nth_value, counted_after]
  rfl

theorem counter_after (n k : Nat) :
    Callable.after ({ n := n } : counter) k = { n := n + k } := by
  induction k with
  | zero => rfl
  | succ k ih =>
    simp only [Callable.after, ih]
    rfl

theorem counter_nth_value (n k : Nat) :
    Callable.nth_value ({ n := n } : counter) k = n + k := by
  simp only [Callable.nth_value, counter_after]
  rfl

/-! ### Predicate-terminated generator over a sequence -/

theorem terminated_inc_n_seq {α : Type} (xs : List α) (term : α → Bool) (p k : Nat) :
    (make_terminated_generator ({ data := xs, pos := p } : seq_cursor α) term).inc_n k
      = make_terminated_generator ({ data := xs, pos := p + k } : seq_cursor α) term := by
  induction k with
  | zero => rfl
  | succ k ih =>
    simp only [terminated_generator.inc_n, ih]
    rfl

theorem terminated_bool_seq {α : Type} (xs : List α) (term : α → Bool) (p : Nat)
    (h : p < xs.length) :
    (make_terminated_generator ({ data := xs, pos := p } : seq_cursor α) term).operator_bool
      = some (!term xs[p]) := by
  simp [terminated_generator.operator_bool, make_terminated_generator, Cursor.deref,
    List.getElem?_eq_getElem h]

theorem terminated_bool_before {α : Type} (xs : List α) (term : α → Bool) (k : Nat)
    (h : k < xs.findIdx term) :
    (make_terminated_generator ({ data := xs, pos := k } : seq_cursor α) term).operator_bool
      = some true := by
  have hlen : k < xs.length := Nat.lt_of_lt_of_le h (List.findIdx_le_length term)
  rw [terminated_bool_seq xs term k hlen]
  have := List.not_of_lt_findIdx h
  simp [this]

theorem terminated_bool_at {α : Type} (xs : List α) (term : α → Bool)
    (h : ∃ x ∈ xs, term x = true) :
    (make_terminated_generator ({ data := xs, pos := xs.findIdx term } : seq_cursor α)
        term).operator_bool = some false := by
  have hlen : xs.findIdx term < xs.length := List.findIdx_lt_length_of_exists h
  rw [terminated_bool_seq xs term _ hlen]
  have : term xs[xs.findIdx term] = true := List.findIdx_getElem
  simp [this]

theorem drain_aux {α : Type} (xs : List α) (term : α → Bool) (h : ∃ x ∈ xs, term x = true) :
    ∀ (d k fuel : Nat), k + d = xs.findIdx term → d < fuel →
      (make_terminated_generator ({ data := xs, pos := k } : seq_cursor α) term).drain fuel
        = some ((xs.take (xs.findIdx term)).drop k) := by
  intro d
  induction d with
  | zero =>
    intro k fuel hk hfuel
    obtain ⟨fuel, rfl⟩ : ∃ f, fuel = f + 1 := ⟨fuel - 1, by omega⟩
    have hk2 : k = xs.findIdx term := by omega
    subst hk2
    simp [terminated_generator.drain, terminated_bool_at xs term h]
  | succ d ih =>
    intro k fuel hk hfuel
    obtain ⟨fuel, rfl⟩ : ∃ f, fuel = f + 1 := ⟨fuel - 1, by omega⟩
    have hlt : k < xs.findIdx term := by omega
    have hlen : k < xs.length := Nat.lt_of_lt_of_le hlt (List.findIdx_le_length term)
    have hderef : (make_terminated_generator ({ data := xs, pos := k } : seq_cursor α)
        term).operator_deref = some xs[k] := by
      simp [terminated_generator.operator_deref, make_terminated_generator, Cursor.deref,
        List.getElem?_eq_getElem hlen]
    have hinc : (make_terminated_generator ({ data := xs, pos := k } : seq_cursor α)
        term).operator_inc
          = make_terminated_generator ({ data := xs, pos := k + 1 } : seq_cursor α) term := rfl
    have hnext := ih (k + 1) fuel (by omega) (by omega)
    have hdrop : (xs.take (xs.findIdx term)).drop k
        = xs[k] :: (xs.take (xs.findIdx term)).drop (k + 1) := by
      have hk3 : k < (xs.take (xs.findIdx term)).length := by
        simp [List.length_take]
        omega
      rw [List.drop_eq_getElem_cons hk3]
      simp
    simp [terminated_generator.drain, terminated_bool_before xs term k hlt, hderef, hinc,
      hnext, hdrop]

/-! ### Constant generator -/

theorem constant_advance_all {α : Type} (g : constant_generator α) (as : List advance_kind) :
    g.advance_all as = g := by
  induction as with
  | nil => rfl
  | cons a as ih =>
    cases a <;> simpa [constant_generator.advance_all, constant_generator.advance,
      constant_generator.operator_inc, constant_generator.operator_postinc] using ih

/-! ### Unbounded cursor-backed generator over a sequence -/

theorem iterator_inc_n_seq {α : Type} (xs : List α) (p k : Nat) :
    (make_generator ({ data := xs, pos := p } : seq_cursor α)).inc_n k
      = make_generator ({ data := xs, pos := p + k } : seq_cursor α) := by
  induction k with
  | zero => rfl
  | succ k ih =>
    simp only [iterator_generator.inc_n, ih]
    rfl

theorem iterator_cycles_aux {α : Type} (xs : List α) :
    ∀ (k p : Nat), p + k ≤ xs.length →
      (make_generator ({ data := xs, pos := p } : seq_cursor α)).cycles k
        = some ((xs.drop p).take k,
            make_generator ({ data := xs, pos := p + k } : seq_cursor α)) := by
  intro k
  induction k with
  | zero =>
    intro p _
    simp [iterator_generator.cycles]
  | succ k ih =>
    intro p hp
    have hlt : p < xs.length := by omega
    have hderef : (make_generator ({ data := xs, pos := p } : seq_cursor α)).operator_deref
        = some xs[p] := by
      simp [iterator_generator.operator_deref, make_generator, Cursor.deref,
        List.getElem?_eq_getElem hlt]
    have hinc : (make_generator ({ data := xs, pos := p } : seq_cursor α)).operator_inc
        = make_generator ({ data := xs, pos := p + 1 } : seq_cursor α) := rfl
    have hnext := ih (p + 1) (by omega)
    have hdrop : xs.drop p = xs[p] :: xs.drop (p + 1) := List.drop_eq_getElem_cons hlt
    have hpos : p + 1 + k = p + (k + 1) := by omega
    simp only [iterator_generator.cycles, hderef, hinc, hnext]
    rw [hdrop, List.take_succ_cons, hpos]

/-! ### Single calls, inverted -/

theorem delimited_call_inv {α : Type} (c c1 : delimited_iterator_consumer α) (v : α) (r : Bool)
    (h : c.operator_call v = some (r, c1)) :
    (r = false ∧ c.i = c.j ∧ c1 = c) ∨
    (r = true ∧ c.i ≠ c.j ∧ c.i < c.buf.length ∧
      c1 = { buf := c.buf.set c.i v, i := c.i + 1, j := c.j }) := by
  by_cases hij : c.i = c.j
  · rw [delimited_call_full c v hij] at h
    simp at h
    exact Or.inl ⟨h.1, hij, h.2.symm⟩
  · by_cases hlt : c.i < c.buf.length
    · rw [delimited_call_room c v hij hlt] at h
      simp at h
      exact Or.inr ⟨h.1, hij, hlt, h.2.symm⟩
    · simp [delimited_iterator_consumer.operator_call, hij,
        assign_slot_of_ge c.buf c.i v (by omega)] at h

theorem iterator_call_inv {α : Type} (c c1 : iterator_consumer α) (v : α) (r : Bool)
    (h : c.operator_call v = some (r, c1)) :
    r = true ∧ c.i < c.buf.length ∧ c1 = { buf := c.buf.set c.i v, i := c.i + 1 } := by
  by_cases hlt : c.i < c.buf.length
  · rw [iterator_call_room c v hlt] at h
    simp at h
    exact ⟨h.1, hlt, h.2.symm⟩
  · simp [iterator_consumer.operator_call, assign_slot_of_ge c.buf c.i v (by omega)] at h

/-! ### Bounded consumer: where the writes land -/

theorem write_positions_aux {α : Type} (vs : List α) :
    ∀ (c : delimited_iterator_consumer α) (N : Nat), c.j = c.i + N → c.j ≤ c.buf.length →
      c.write_positions vs = some (List.range' c.i (min vs.length N)) := by
  induction vs with
  | nil =>
    intro c N _ _
    simp [delimited_iterator_consumer.write_positions]
  | cons v vs ih =>
    intro c N hj hb
    cases N with
    | zero =>
      have hij : c.i = c.j := by omega
      have := ih c 0 hj hb
      simp [delimited_iterator_consumer.write_positions, delimited_call_full c v hij, this]
    | succ n =>
      have hne : c.i ≠ c.j := by omega
      have hlt : c.i < c.buf.length := by omega
      have := ih { buf := c.buf.set c.i v, i := c.i + 1, j := c.j } n
        (by simp; omega) (by simp; omega)
      simp [delimited_iterator_consumer.write_positions, delimited_call_room c v hne hlt, this,
        Nat.succ_min_succ, List.range'_succ]

theorem delimited_offer_all_keeps {α : Type} (vs : List α) :
    ∀ (c c1 : delimited_iterator_consumer α) (rs : List Bool),
      c.offer_all vs = some (rs, c1) → c1.j = c.j ∧ c1.buf.length = c.buf.length := by
  induction vs with
  | nil =>
    intro c c1 rs h
    simp [delimited_iterator_consumer.offer_all] at h
    rw [← h.2]
    exact ⟨rfl, rfl⟩
  | cons v vs ih =>
    intro c c1 rs h
    simp only [delimited_iterator_consumer.offer_all] at h
    cases hcall : c.operator_call v with
    | none => simp [hcall] at h
    | some rc =>
      obtain ⟨r, c2⟩ := rc
      simp only [hcall] at h
      cases hrest : c2.offer_all vs with
      | none => simp [hrest] at h
      | some rest =>
        obtain ⟨rs2, c3⟩ := rest
        simp only [hrest] at h
        simp at h
        have hk := ih c2 c3 rs2 hrest
        rw [← h.2]
        rcases delimited_call_inv c c2 v r hcall with ⟨_, _, hc⟩ | ⟨_, _, _, hc⟩
        · rw [hc] at hk
          exact hk
        · rw [hc] at hk
          simpa using hk

/-! ### The claims -/

/-- C1: a bounded cursor-backed consumer whose cursor equals its sentinel returns false and is
left unchanged (buffer and cursor); otherwise the call stores the value in the slot at the
cursor, advances the cursor by one, keeps the sentinel and returns true. -/
theorem delimited_consumer_call_spec {α : Type} (c : delimited_iterator_consumer α) (v : α) :
    (c.i = c.j → c.operator_call v = some (false, c)) ∧
    (c.i ≠ c.j → c.i < c.buf.length →
      c.operator_call v = some (true, { buf := c.buf.set c.i v, i := c.i + 1, j := c.j })) :=
  ⟨delimited_call_full c v, delimited_call_room c v⟩

/-- C1 at concrete states: a full two-slot consumer rejects 5, an empty one stores it. -/
theorem delimited_consumer_call_spec_witness :
    (make_consumer_delimited [1, 2] 2 2).operator_call 5
        = some (false, make_consumer_delimited [1, 2] 2 2) ∧
    (make_consumer_delimited [0, 0] 0 2).operator_call 5
        = some (true, { buf := [5, 0], i := 1, j := 2 }) :=
  ⟨(delimited_consumer_call_spec (make_consumer_delimited [1, 2] 2 2) 5).1 rfl,
   (delimited_consumer_call_spec (make_consumer_delimited [0, 0] 0 2) 5).2
      (by decide) (by decide)⟩

/-- C2: a bounded cursor-backed consumer whose cursor lies `N` positions before its sentinel,
offered the values of `vs` in order, returns true for exactly the first `min |vs| N` values
and false for every later one; afterwards the slots from the initial cursor on hold the first
`min |vs| N` values of `vs` in order, the rest of the buffer is as before, and the cursor has
advanced by `min |vs| N`. -/
theorem delimited_consumer_offer_all_spec {α : Type} (c : delimited_iterator_consumer α)
    (N : Nat) (vs : List α) (hj : c.j = c.i + N) (hb : c.j ≤ c.buf.length) :
    c.offer_all vs = some
      (List.replicate (min vs.length N) true ++ List.replicate (vs.length - N) false,
        { buf := c.buf.take c.i ++ vs.take N ++ c.buf.drop (c.i + min vs.length N),
          i := c.i + min vs.length N, j := c.j }) :=
  delimited_offer_all_aux vs c N hj hb

/-- C2 at capacity 2: offering 1, 2, 3 into a two-slot buffer gives true, true, false and
leaves the buffer at `[1, 2]`. -/
theorem delimited_consumer_offer_all_spec_witness :
    (make_consumer_delimited [0, 0] 0 2).offer_all [1, 2, 3]
      = some ([true, true, false], { buf := [1, 2], i := 2, j := 2 }) :=
  delimited_consumer_offer_all_spec (make_consumer_delimited [0, 0] 0 2) 2 [1, 2, 3]
    (by decide) (by decide)

/-- C8: an unbounded cursor-backed consumer never returns false; a call with a slot at the
cursor writes the value there and advances the cursor by one; and offering the values of `vs`
in order into a target with room for them returns true every time and leaves `vs`, in order,
at the positions starting at the initial cursor. -/
theorem iterator_consumer_offer_all_spec {α : Type} (c : iterator_consumer α) (vs : List α)
    (hroom : c.i + vs.length ≤ c.buf.length) :
    c.offer_all vs = some
        (List.replicate vs.length true,
          { buf := c.buf.take c.i ++ vs ++ c.buf.drop (c.i + vs.length),
            i := c.i + vs.length }) ∧
    (∀ (d : iterator_consumer α) (v : α) (r : Bool) (d1 : iterator_consumer α),
        d.operator_call v = some (r, d1) → r = true) ∧
    (∀ (d : iterator_consumer α) (v : α), d.i < d.buf.length →
        d.operator_call v = some (true, { buf := d.buf.set d.i v, i := d.i + 1 })) :=
  ⟨iterator_offer_all_aux vs c hroom, iterator_call_true, iterator_call_room⟩

/-- C8 on three slots: offering 1, 2, 3 returns true three times and leaves `[1, 2, 3]`. -/
theorem iterator_consumer_offer_all_spec_witness :
    (make_consumer [0, 0, 0] 0).offer_all [1, 2, 3]
      = some ([true, true, true], { buf := [1, 2, 3], i := 3 }) :=
  (iterator_consumer_offer_all_spec (make_consumer [0, 0, 0] 0) [1, 2, 3] (by decide)).1

/-- C9: once a call of a bounded cursor-backed consumer has returned false, the consumer is
unchanged and every later call returns false, whatever values are offered; and no call of an
unbounded consumer returns false. -/
theorem dead_sink_stays_dead {α : Type} (c c1 : delimited_iterator_consumer α) (v : α)
    (hfalse : c.operator_call v = some (false, c1)) :
    (∀ vs : List α, c1.offer_all vs = some (List.replicate vs.length false, c1)) ∧
    (∀ w : α, c1.operator_call w = some (false, c1)) ∧
    (∀ (d : iterator_consumer α) (w : α) (d1 : iterator_consumer α),
        d.operator_call w ≠ some (false, d1)) := by
  obtain ⟨hij, hc⟩ := delimited_call_false_inv c c1 v hfalse
  subst hc
  refine ⟨delimited_offer_all_full c1 hij, fun w => delimited_call_full c1 w hij, ?_⟩
  intro d w d1 h
  exact Bool.noConfusion (iterator_call_true d w false d1 h)

/-- C9 on a two-slot buffer: after 1, 2 have filled it and 3 was rejected, 4, 5, 6 are
rejected as well. -/
theorem dead_sink_stays_dead_witness :
    (make_consumer_delimited [1, 2] 2 2).operator_call 3
        = some (false, make_consumer_delimited [1, 2] 2 2) ∧
    (make_consumer_delimited [1, 2] 2 2).offer_all [4, 5, 6]
        = some ([false, false, false], make_consumer_delimited [1, 2] 2 2) :=
  ⟨by decide,
   (dead_sink_stays_dead (make_consumer_delimited [1, 2] 2 2)
      (make_consumer_delimited [1, 2] 2 2) 3 (by decide)).1 [4, 5, 6]⟩

/-- C5: constructing a callable-backed generator from `f` invokes `f` once and caches `v_0`;
dereference returns the cached value; an advance invokes `f` once and overwrites the cache;
after `k` advances dereference yields `v_k` and the function object is the one after `k + 1`
calls, so that an invocation count kept by `f` reads `k + 1`; liveness is true. -/
theorem function_generator_spec {σ α : Type} [Callable σ α] (f : σ) (k : Nat) :
    function_generator.ctor f
      = { f := (Callable.call f).2, value := Callable.nth_value f 0 } ∧
    (∀ g : function_generator σ α, g.operator_deref = g.value) ∧
    (∀ g : function_generator σ α,
        g.operator_inc = { f := (Callable.call g.f).2, value := (Callable.call g.f).1 }) ∧
    ((make_generator_function f).inc_n k).operator_deref = Callable.nth_value f k ∧
    ((make_generator_function f).inc_n k).f = Callable.after f (k + 1) ∧
    ((make_generator_function ({ inner := f, calls := 0 } : counted σ)).inc_n k).f.calls
      = k + 1 ∧
    ((make_generator_function ({ inner := f, calls := 0 } : counted σ)).inc_n k).operator_deref
      = Callable.nth_value f k ∧
    ((make_generator_function f).inc_n k).operator_bool = true := by
  refine ⟨rfl, fun _ => rfl, fun _ => rfl, ?_, ?_, ?_, ?_, rfl⟩
  · simp [make_generator_function, function_inc_n_ctor, function_generator.operator_deref]
  · simp [make_generator_function, function_inc_n_ctor]
  · simp [make_generator_function, function_inc_n_ctor, counted_after]
  · simp [make_generator_function, function_inc_n_ctor, function_generator.operator_deref,
      counted_nth_value]

/-- C5 on a counter from 0: the current value is 0 after construction and 1 after one
advance, when the counter has been invoked twice. -/
theorem function_generator_spec_witness :
    (make_generator_function ({ n := 0 } : counter)).operator_deref = 0 ∧
    ((make_generator_function ({ n := 0 } : counter)).inc_n 1).operator_deref = 1 ∧
    ((make_generator_function
        ({ inner := ({ n := 0 } : counter), calls := 0 } : counted counter)).inc_n 1).f.calls
      = 2 :=
  ⟨(function_generator_spec ({ n := 0 } : counter) 0).2.2.2.1,
   (function_generator_spec ({ n := 0 } : counter) 1).2.2.2.1,
   (function_generator_spec ({ n := 0 } : counter) 1).2.2.2.2.2.1⟩

/-- C6: two callable-backed generators compare equal exactly when their function objects
compare equal and their cached values compare equal, and `!=` is the negation of `==`; two
generators built from counters with the same start compare equal after construction, and
unequal (both ways round) once one of them has been advanced `k ≥ 1` times. -/
theorem function_generator_eq_spec {σ α : Type} [BEq σ] [BEq α] (a b : function_generator σ α)
    (n k : Nat) (hk : 1 ≤ k) :
    (a.operator_eq b = true ↔ (a.f == b.f) = true ∧ (a.value == b.value) = true) ∧
    a.operator_ne b = !(a.operator_eq b) ∧
    (make_generator_function ({ n := n } : counter)).operator_eq
        (make_generator_function ({ n := n } : counter)) = true ∧
    ((make_generator_function ({ n := n } : counter)).inc_n k).operator_eq
        (make_generator_function ({ n := n } : counter)) = false ∧
    (make_generator_function ({ n := n } : counter)).operator_eq
        ((make_generator_function ({ n := n } : counter)).inc_n k) = false ∧
    ((make_generator_function ({ n := n } : counter)).inc_n k).operator_ne
        (make_generator_function ({ n := n } : counter)) = true := by
  have h0 : make_generator_function ({ n := n } : counter)
      = { f := { n := n + 1 }, value := n } := rfl
  have hk1 : (make_generator_function ({ n := n } : counter)).inc_n k
      = { f := { n := n + (k + 1) }, value := n + k } := by
    simp [make_generator_function, function_inc_n_ctor, counter_after, counter_nth_value]
  have hne : ¬ (n + (k + 1) = n + 1) := by omega
  have hne2 : ¬ (n + 1 = n + (k + 1)) := by omega
  refine ⟨?_, rfl, ?_, ?_, ?_, ?_⟩
  · simp [function_generator.operator_eq]
  · simp [h0, function_generator.operator_eq]
  · rw [hk1, h0]
    simp [function_generator.operator_eq, hne]
  · rw [hk1, h0]
    simp [function_generator.operator_eq, hne2]
  · rw [hk1, h0]
    simp [function_generator.operator_ne, function_generator.operator_eq, hne]

/-- C6 on counters from 0: equal after construction, unequal after one advance of one. -/
theorem function_generator_eq_spec_witness :
    (make_generator_function ({ n := 0 } : counter)).operator_eq
        (make_generator_function ({ n := 0 } : counter)) = true ∧
    ((make_generator_function ({ n := 0 } : counter)).inc_n 1).operator_eq
        (make_generator_function ({ n := 0 } : counter)) = false :=
  ⟨(function_generator_eq_spec (make_generator_function ({ n := 0 } : counter))
      (make_generator_function ({ n := 0 } : counter)) 0 1 (by decide)).2.2.1,
   (function_generator_eq_spec (make_generator_function ({ n := 0 } : counter))
      (make_generator_function ({ n := 0 } : counter)) 0 1 (by decide)).2.2.2.1⟩

/-- C7: the liveness of a predicate-terminated generator is `!term(*i)`; when some element of
`xs` satisfies `term` and `p` is the index of the first one, the generator built at the start
of `xs` is live after every `k < p` advances and not live after `p` advances, and the protocol
loop ends and yields exactly the longest initial segment of `xs` with no element satisfying
`term`, which is the first `p` elements. -/
theorem terminated_generator_spec {α : Type} (xs : List α) (term : α → Bool)
    (h : ∃ x ∈ xs, term x = true) :
    (∀ (g : terminated_generator (seq_cursor α) α) (x : α),
        g.operator_deref = some x → g.operator_bool = some (!g.term x)) ∧
    (∀ k : Nat, k < xs.findIdx term →
        ((make_terminated_generator (seq_begin xs) term).inc_n k).operator_bool = some true) ∧
    ((make_terminated_generator (seq_begin xs) term).inc_n (xs.findIdx term)).operator_bool
      = some false ∧
    (∀ fuel : Nat, xs.findIdx term < fuel →
        (make_terminated_generator (seq_begin xs) term).drain fuel
          = some (xs.takeWhile (fun x => !term x))) ∧
    xs.takeWhile (fun x => !term x) = xs.take (xs.findIdx term) := by
  have hinc : ∀ m, (make_terminated_generator (seq_begin xs) term).inc_n m
      = make_terminated_generator ({ data := xs, pos := m } : seq_cursor α) term := by
    intro m
    have := terminated_inc_n_seq xs term 0 m
    simpa [seq_begin] using this
  have htw : xs.takeWhile (fun x => !term x) = xs.take (xs.findIdx term) := by
    rw [List.takeWhile_eq_take_findIdx_not]
    simp
  refine ⟨?_, ?_, ?_, ?_, htw⟩
  · intro g x hx
    simp only [terminated_generator.operator_deref] at hx
    simp [terminated_generator.operator_bool, hx]
  · intro k hk
    rw [hinc k]
    exact terminated_bool_before xs term k hk
  · rw [hinc]
    exact terminated_bool_at xs term h
  · intro fuel hfuel
    have := drain_aux xs term h (xs.findIdx term) 0 fuel (by omega) hfuel
    rw [htw]
    simpa [seq_begin] using this

/-- C7 on `[2, 4, 6, 7, 8]` with the predicate "is odd": the loop yields 2, 4, 6 and the
generator is not live after three advances, at 7. -/
theorem terminated_generator_spec_witness :
    (make_terminated_generator (seq_begin [2, 4, 6, 7, 8]) (fun x => x % 2 == 1)).drain 4
      = some [2, 4, 6] ∧
    ((make_terminated_generator (seq_begin [2, 4, 6, 7, 8])
        (fun x => x % 2 == 1)).inc_n 3).operator_bool = some false ∧
    ((make_terminated_generator (seq_begin [2, 4, 6, 7, 8])
        (fun x => x % 2 == 1)).inc_n 3).operator_deref = some 7 :=
  ⟨(terminated_generator_spec [2, 4, 6, 7, 8] (fun x => x % 2 == 1)
      ⟨7, by decide, by decide⟩).2.2.2.1 4 (by decide),
   (terminated_generator_spec [2, 4, 6, 7, 8] (fun x => x % 2 == 1)
      ⟨7, by decide, by decide⟩).2.2.1,
   by decide⟩

/-- C10: a constant generator wrapping `v` is, after any list of advances (pre-increment or
post-increment, in any mix), the generator it was: it is live and dereferences to `v`; each
advance leaves the generator as it was, and post-increment returns a copy of it. -/
theorem constant_generator_spec {α : Type} (v : α) (as : List advance_kind) :
    (make_constant_generator v).advance_all as = make_constant_generator v ∧
    ((make_constant_generator v).advance_all as).operator_bool = true ∧
    ((make_constant_generator v).advance_all as).operator_deref = v ∧
    (∀ g : constant_generator α, g.operator_inc = g) ∧
    (∀ g : constant_generator α, g.operator_postinc = (g, g)) := by
  refine ⟨constant_advance_all _ as, rfl, ?_, fun _ => rfl, fun _ => rfl⟩
  rw [constant_advance_all]
  rfl

/-- C10 on the value 7 with the advances `++g`, `g++`, `++g`. -/
theorem constant_generator_spec_witness :
    ((make_constant_generator 7).advance_all
        [advance_kind.pre, advance_kind.post, advance_kind.pre]).operator_deref = 7 ∧
    ((make_constant_generator 7).advance_all
        [advance_kind.pre, advance_kind.post, advance_kind.pre]).operator_bool = true :=
  ⟨(constant_generator_spec 7 [advance_kind.pre, advance_kind.post, advance_kind.pre]).2.2.1,
   (constant_generator_spec 7 [advance_kind.pre, advance_kind.post, advance_kind.pre]).2.1⟩

/-- C11: an unbounded cursor-backed generator reports liveness true whatever its cursor;
built at the start of `xs`, after `m` advances its cursor is at position `m` and dereference
reads the element there; and for `k ≤ len(xs)`, `k` cycles of dereference then advance yield
the first `k` elements of `xs` in order. -/
theorem iterator_generator_spec {α : Type} (xs : List α) (k : Nat) (hk : k ≤ xs.length) :
    (make_generator (seq_begin xs)).cycles k
      = some (xs.take k, make_generator ({ data := xs, pos := k } : seq_cursor α)) ∧
    (∀ g : iterator_generator (seq_cursor α), g.operator_bool = true) ∧
    (∀ m : Nat, (make_generator (seq_begin xs)).inc_n m
      = make_generator ({ data := xs, pos := m } : seq_cursor α)) ∧
    (∀ m : Nat, ((make_generator (seq_begin xs)).inc_n m).operator_deref = xs[m]?) := by
  have hinc : ∀ m : Nat, (make_generator (seq_begin xs)).inc_n m
      = make_generator ({ data := xs, pos := m } : seq_cursor α) := by
    intro m
    have := iterator_inc_n_seq xs 0 m
    simpa [seq_begin] using this
  refine ⟨?_, fun _ => rfl, hinc, ?_⟩
  · have := iterator_cycles_aux xs k 0 (by omega)
    simpa [seq_begin] using this
  · intro m
    rw [hinc m]
    rfl

/-- C11 on `[1, 2, 3]`: three cycles yield 1, 2, 3. -/
theorem iterator_generator_spec_witness :
    (make_generator (seq_begin [1, 2, 3])).cycles 3
      = some ([1, 2, 3], make_generator ({ data := [1, 2, 3], pos := 3 } : seq_cursor Nat)) :=
  (iterator_generator_spec [1, 2, 3] 3 (by decide)).1

/-- C13: two unbounded cursor-backed generators compare equal exactly when their cursors
compare equal, and `!=` is the negation of `==`; when cursor equality is reflexive, symmetric
and transitive, so is generator equality. -/
theorem iterator_generator_eq_spec {κ : Type} [BEq κ]
    (hrefl : ∀ x : κ, (x == x) = true)
    (hsymm : ∀ x y : κ, (x == y) = true → (y == x) = true)
    (htrans : ∀ x y z : κ, (x == y) = true → (y == z) = true → (x == z) = true) :
    (∀ a b : iterator_generator κ, a.operator_eq b = (a.i == b.i)) ∧
    (∀ a b : iterator_generator κ, a.operator_ne b = !(a.operator_eq b)) ∧
    (∀ a : iterator_generator κ, a.operator_eq a = true) ∧
    (∀ a b : iterator_generator κ, a.operator_eq b = true → b.operator_eq a = true) ∧
    (∀ a b c : iterator_generator κ,
        a.operator_eq b = true → b.operator_eq c = true → a.operator_eq c = true) :=
  ⟨fun _ _ => rfl, fun _ _ => rfl, fun a => hrefl a.i, fun a b => hsymm a.i b.i,
    fun a b c => htrans a.i b.i c.i⟩

/-- C13 on positions of `[1, 2, 3]`: equal cursors give equal generators, different cursors
unequal ones. -/
theorem iterator_generator_eq_spec_witness :
    (make_generator (seq_begin [1, 2, 3])).operator_eq (make_generator (seq_begin [1, 2, 3]))
      = true ∧
    (make_generator (seq_begin [1, 2, 3])).operator_ne (make_generator (seq_end [1, 2, 3]))
      = true :=
  ⟨(iterator_generator_eq_spec (fun x => beq_self_eq_true x)
      (fun x y h => beq_iff_eq.mpr (beq_iff_eq.mp h).symm)
      (fun x y z h1 h2 => beq_iff_eq.mpr ((beq_iff_eq.mp h1).trans (beq_iff_eq.mp h2)))).2.2.1
      (make_generator (seq_begin [1, 2, 3])),
   by decide⟩

/-- C15: post-increment agrees with dereference then pre-increment.  For a cursor-backed and
for a predicate-terminated generator `g++` returns the cursor held before the call, whose
dereference is what `*g` was, and leaves `g` as `++g` does; for a callable-backed generator
`g++` returns a proxy built from the cached value, whose dereference is what `*g` was when
dereferencing a proxy yields the value it was built from, and leaves `g` as `++g` does; for a
constant generator `g++` returns a copy of `g` and leaves `g` unchanged. -/
theorem postinc_agrees_with_inc {κ α σ β π γ : Type} [Cursor κ α] [Callable σ β] :
    (∀ g : iterator_generator κ,
        Cursor.deref g.operator_postinc.1 = g.operator_deref ∧
        g.operator_postinc.2 = g.operator_inc) ∧
    (∀ (proxy : β → π) (proxy_deref : π → β), (∀ v : β, proxy_deref (proxy v) = v) →
      ∀ g : function_generator σ β,
        proxy_deref (g.operator_postinc proxy).1 = g.operator_deref ∧
        (g.operator_postinc proxy).2 = g.operator_inc) ∧
    (∀ g : terminated_generator κ α,
        Cursor.deref g.operator_postinc.1 = g.operator_deref ∧
        g.operator_postinc.2 = g.operator_inc) ∧
    (∀ g : constant_generator γ,
        g.operator_postinc.1 = g ∧ g.operator_postinc.2 = g) := by
  refine ⟨fun _ => ⟨rfl, rfl⟩, ?_, fun _ => ⟨rfl, rfl⟩, fun _ => ⟨rfl, rfl⟩⟩
  intro proxy proxy_deref hproxy g
  exact ⟨hproxy g.value, rfl⟩

/-- C15 on concrete generators in a live state: over `[1, 2, 3]` the cursor returned by `g++`
dereferences to 1 and `g` then reads 2; on a counter from 0 the proxy returned by `g++` holds
0 and `g` then reads 1. -/
theorem postinc_agrees_with_inc_witness :
    Cursor.deref (make_generator (seq_begin [1, 2, 3])).operator_postinc.1 = some 1 ∧
    (make_generator (seq_begin [1, 2, 3])).operator_postinc.2.operator_deref = some 2 ∧
    ((make_generator_function ({ n := 0 } : counter)).operator_postinc (fun v => v)).1 = 0 ∧
    ((make_generator_function ({ n := 0 } : counter)).operator_postinc
        (fun v => v)).2.operator_deref = 1 :=
  ⟨((@postinc_agrees_with_inc (seq_cursor Nat) Nat counter Nat Nat Nat _ _).1
      (make_generator (seq_begin [1, 2, 3]))).1,
   by decide,
   ((@postinc_agrees_with_inc (seq_cursor Nat) Nat counter Nat Nat Nat _ _).2.1
      (fun v => v) (fun w => w) (fun _ => rfl)
      (make_generator_function ({ n := 0 } : counter))).1,
   by decide⟩

/-- C18: the writes of a bounded cursor-backed consumer stay in bounds.  Built with initial
cursor `i0` and sentinel `j`, `i0 ≤ j ≤ len(buf)`, and offered any list of values, every call
has a result, every position written lies in `[i0, j)`, and the consumer reached has
`i0 ≤ i ≤ j`, the same sentinel and a buffer of the same length; from it, a further call has a
result too, and when that call writes (`i ≠ j`) the checked write is in range. -/
theorem delimited_consumer_writes_in_bounds {α : Type} (buf : List α) (i0 j : Nat)
    (vs : List α) (hij : i0 ≤ j) (hj : j ≤ buf.length) :
    ∃ (rs : List Bool) (c : delimited_iterator_consumer α) (ps : List Nat),
      (make_consumer_delimited buf i0 j).offer_all vs = some (rs, c) ∧
      (make_consumer_delimited buf i0 j).write_positions vs = some ps ∧
      (∀ p ∈ ps, i0 ≤ p ∧ p < j) ∧
      i0 ≤ c.i ∧ c.i ≤ j ∧ c.j = j ∧ c.buf.length = buf.length ∧
      (∀ v : α, c.i ≠ c.j → c.i < j ∧ assign_slot c.buf c.i v = some (c.buf.set c.i v)) ∧
      (∀ v : α, ∃ (r : Bool) (c1 : delimited_iterator_consumer α),
        c.operator_call v = some (r, c1)) := by
  have hN : j = i0 + (j - i0) := by omega
  have hrun := delimited_offer_all_aux vs (make_consumer_delimited buf i0 j) (j - i0) hN hj
  have hpos := write_positions_aux vs (make_consumer_delimited buf i0 j) (j - i0) hN hj
  have hlen : (buf.take i0 ++ vs.take (j - i0)
      ++ buf.drop (i0 + min vs.length (j - i0))).length = buf.length :=
    (delimited_offer_all_keeps vs _ _ _ hrun).2
  simp only [make_consumer_delimited] at hrun hpos
  refine ⟨_, _, _, hrun, hpos, ?_, ?_, ?_, rfl, hlen, ?_, ?_⟩
  · intro p hp
    rw [List.mem_range'_1] at hp
    omega
  · exact Nat.le_add_right _ _
  · show i0 + min vs.length (j - i0) ≤ j
    omega
  · intro v hne
    have hne2 : i0 + min vs.length (j - i0) ≠ j := hne
    have hlt : i0 + min vs.length (j - i0) < j := by omega
    have hb : i0 + min vs.length (j - i0) < (buf.take i0 ++ vs.take (j - i0)
        ++ buf.drop (i0 + min vs.length (j - i0))).length := by
      rw [hlen]
      omega
    exact ⟨hlt, assign_slot_of_lt _ _ v hb⟩
  · intro v
    by_cases hne : i0 + min vs.length (j - i0) = j
    · exact ⟨false, _, delimited_call_full _ v hne⟩
    · have hb : i0 + min vs.length (j - i0) < (buf.take i0 ++ vs.take (j - i0)
          ++ buf.drop (i0 + min vs.length (j - i0))).length := by
        rw [hlen]
        omega
      exact ⟨true, _, delimited_call_room _ v hne hb⟩

/-- C18 on a four-slot buffer with `i0 = 1`, `j = 3`: offering 7, 8, 9 writes at positions 1
and 2 only. -/
theorem delimited_consumer_writes_in_bounds_witness :
    ∃ (rs : List Bool) (c : delimited_iterator_consumer Nat) (ps : List Nat),
      (make_consumer_delimited [0, 0, 0, 0] 1 3).offer_all [7, 8, 9] = some (rs, c) ∧
      (make_consumer_delimited [0, 0, 0, 0] 1 3).write_positions [7, 8, 9] = some ps ∧
      (∀ p ∈ ps, 1 ≤ p ∧ p < 3) ∧
      1 ≤ c.i ∧ c.i ≤ 3 ∧ c.j = 3 ∧ c.buf.length = [0, 0, 0, 0].length ∧
      (∀ v : Nat, c.i ≠ c.j → c.i < 3 ∧ assign_slot c.buf c.i v = some (c.buf.set c.i v)) ∧
      (∀ v : Nat, ∃ (r : Bool) (c1 : delimited_iterator_consumer Nat),
        c.operator_call v = some (r, c1)) :=
  delimited_consumer_writes_in_bounds [0, 0, 0, 0] 1 3 [7, 8, 9] (by decide) (by decide)

/-- C19: frame of a call.  A call of a bounded cursor-backed consumer that has a result keeps
the sentinel and the length of the buffer and every slot other than the one at the cursor held
before the call; when it returns true that slot holds the value and the cursor has advanced by
one, and when it returns false nothing has changed.  The same holds for the unbounded
consumer, whose calls all return true, and no list of calls changes the sentinel of a bounded
consumer. -/
theorem acceptance_frame {α : Type} (c c1 : delimited_iterator_consumer α) (v : α) (r : Bool)
    (h : c.operator_call v = some (r, c1)) :
    (c1.j = c.j ∧ c1.buf.length = c.buf.length ∧
      (∀ p : Nat, p ≠ c.i → c1.buf[p]? = c.buf[p]?) ∧
      (r = true → c1.i = c.i + 1 ∧ c1.buf[c.i]? = some v) ∧
      (r = false → c1 = c)) ∧
    (∀ (d d1 : iterator_consumer α) (w : α) (q : Bool), d.operator_call w = some (q, d1) →
      d1.buf.length = d.buf.length ∧
      (∀ p : Nat, p ≠ d.i → d1.buf[p]? = d.buf[p]?) ∧
      d1.i = d.i + 1 ∧ d1.buf[d.i]? = some w) ∧
    (∀ (e e1 : delimited_iterator_consumer α) (ws : List α) (qs : List Bool),
      e.offer_all ws = some (qs, e1) → e1.j = e.j) := by
  refine ⟨?_, ?_, ?_⟩
  · rcases delimited_call_inv c c1 v r h with ⟨hr, _, hc⟩ | ⟨hr, _, hlt, hc⟩
    · subst hc
      subst hr
      exact ⟨rfl, rfl, fun _ _ => rfl, fun hf => Bool.noConfusion hf, fun _ => rfl⟩
    · subst hc
      subst hr
      refine ⟨rfl, by simp, ?_, fun _ => ⟨rfl, ?_⟩, fun hf => Bool.noConfusion hf⟩
      · intro p hp
        exact List.getElem?_set_ne (Ne.symm hp)
      · exact List.getElem?_set_self hlt
  · intro d d1 w q hd
    obtain ⟨_, hlt, hc⟩ := iterator_call_inv d d1 w q hd
    subst hc
    refine ⟨by simp, ?_, rfl, ?_⟩
    · intro p hp
      exact List.getElem?_set_ne (Ne.symm hp)
    · exact List.getElem?_set_self hlt
  · intro e e1 ws qs he
    exact (delimited_offer_all_keeps ws e e1 qs he).1

/-- C19 on `[0, 0, 0]` with cursor 1 and sentinel 3: accepting 5 changes slot 1 and the
cursor only. -/
theorem acceptance_frame_witness :
    (make_consumer_delimited [0, 0, 0] 1 3).operator_call 5
        = some (true, { buf := [0, 5, 0], i := 2, j := 3 }) ∧
    (∀ p : Nat, p ≠ 1 → [0, 5, 0][p]? = [0, 0, 0][p]?) :=
  ⟨by decide,
   (acceptance_frame (make_consumer_delimited [0, 0, 0] 1 3)
      { buf := [0, 5, 0], i := 2, j := 3 } 5 true (by decide)).1.2.2.1⟩

/-- C14, as stated, fails: for a type that is an iterator, not a native generator, and a
zero-argument callable, both one-argument overloads of `make_generator` are enabled, and the
call is ambiguous. -/
theorem make_generator_overloads_both_enabled :
    make_generator_overload.enabled callable_iterator_capabilities
        make_generator_overload.cursor_backed = true ∧
    make_generator_overload.enabled callable_iterator_capabilities
        make_generator_overload.callable_backed = true ∧
    resolve (make_generator_candidates callable_iterator_capabilities)
      = resolution.ambiguous := by
  decide

/-- C14, amended: for every argument type that is not an iterator, or is a native generator,
or is not a zero-argument callable, at most one of the two one-argument overloads of
`make_generator` is enabled. -/
theorem make_generator_overloads_exclusive (t : capabilities)
    (h : t.is_iterator = false ∨ t.is_generator = true ∨ t.is_callable = false) :
    ¬ (make_generator_overload.enabled t make_generator_overload.cursor_backed = true ∧
        make_generator_overload.enabled t make_generator_overload.callable_backed = true) ∧
    (make_generator_candidates t).length ≤ 1 := by
  obtain ⟨a, b, c⟩ := t
  cases a <;> cases b <;> cases c <;>
    simp_all [make_generator_candidates, make_generator_overload.enabled]

/-- C14, amended, on a native generator type that is also callable: the cursor-backed overload
is disabled, so only one overload is enabled. -/
theorem make_generator_overloads_exclusive_witness :
    (make_generator_candidates callable_generator.capabilities).length ≤ 1 :=
  (make_generator_overloads_exclusive callable_generator.capabilities
    (Or.inr (Or.inl rfl))).2

/-- C3: the code fails the claim.  The round-trip loop tests the liveness of the
sentinel-bounded generator, and `delimited_iterator_generator::operator bool` names the
private member `i` of its base class, so it is ill-formed and the test has no value: on
`S = [1, 2, 3]` and a three-slot buffer the loop has no result whatever the fuel, and the
buffer is never made equal to `S`. -/
theorem round_trip_ill_formed :
    (make_generator_delimited (seq_begin [1, 2, 3]) (seq_end [1, 2, 3])).operator_bool = none ∧
    (∀ fuel : Nat,
      pump fuel (make_generator_delimited (seq_begin [1, 2, 3]) (seq_end [1, 2, 3]))
          (make_consumer_delimited [0, 0, 0] 0 3) = none) ∧
    (∀ fuel : Nat,
      pump fuel (make_generator_delimited (seq_begin [1, 2, 3]) (seq_end [1, 2, 3]))
          (make_consumer_delimited [0, 0, 0] 0 3)
        ≠ some ([true, true, true],
            make_generator_delimited (seq_end [1, 2, 3]) (seq_end [1, 2, 3]),
            make_consumer_delimited [1, 2, 3] 3 3)) := by
  refine ⟨rfl, fun fuel => pump_none fuel _ _, fun fuel h => ?_⟩
  rw [pump_none] at h
  exact Option.noConfusion h

/-- C4: the code fails the claim.  `delimited_iterator_generator::operator bool` is written
`return i != j;`, but `i` is a private member of the base class `iterator_generator`, so the
conversion is ill-formed: for the generator built from `begin` and `end` of `[1, 2, 3]` it has
no value after any number of advances, neither true before the sentinel nor false at it. -/
theorem delimited_generator_liveness_ill_formed :
    iterator_generator.i_access = member_access.priv ∧
    (∀ k : Nat,
      ((make_generator_delimited (seq_begin [1, 2, 3]) (seq_end [1, 2, 3])).inc_n k).operator_bool
        = none) ∧
    (make_generator_delimited (seq_begin [1, 2, 3]) (seq_end [1, 2, 3])).operator_bool
      ≠ some true ∧
    ((make_generator_delimited (seq_begin [1, 2, 3]) (seq_end [1, 2, 3])).inc_n 3).operator_bool
      ≠ some false := by
  refine ⟨rfl, fun k => delimited_operator_bool_none _, ?_, ?_⟩
  · rw [delimited_operator_bool_none]
    exact fun h => Option.noConfusion h
  · rw [delimited_operator_bool_none]
    exact fun h => Option.noConfusion h

/-- C12: the code fails the claim.  For a native generator type of namespace `stdext` that
also has a zero-argument call operator, `make_generator(Function&&)` accepts the type (its
guard lacks the `!is_generator` of `make_generator(Iterator&&)`), so the type is adaptable,
both overloads of `as_generator` are enabled and the call is ambiguous: the argument is not
returned.  Outside namespace `stdext` the same type is not adaptable, because
`make_generator` is not found, and the argument is returned; for the same reason
`as_generator` has no match for the pointer cursor `const int*`, which `make_generator`
accepts. -/
theorem as_generator_native_adaptable_ambiguous :
    (is_generator callable_generator.in_stdext = true ∧
      make_generator_overload.enabled callable_generator.capabilities
        make_generator_overload.cursor_backed = false ∧
      make_generator_overload.enabled callable_generator.capabilities
        make_generator_overload.callable_backed = true ∧
      is_generator_adaptable callable_generator.in_stdext = true) ∧
    as_generator callable_generator.in_stdext make_generator_function
        ({ n := 0 } : callable_generator) = resolution.ambiguous ∧
    as_generator callable_generator.in_stdext make_generator_function
        ({ n := 0 } : callable_generator)
      ≠ resolution.selected (Sum.inl ({ n := 0 } : callable_generator)) ∧
    (is_generator_adaptable callable_generator.outside_stdext = false ∧
      as_generator callable_generator.outside_stdext make_generator_function
          ({ n := 0 } : callable_generator)
        = resolution.selected (Sum.inl ({ n := 0 } : callable_generator))) ∧
    (resolve (make_generator_candidates pointer_cursor.facts)
        = resolution.selected make_generator_overload.cursor_backed ∧
      is_generator_adaptable pointer_cursor = false ∧
      as_generator pointer_cursor make_generator (seq_begin [1, 2, 3])
        = resolution.no_match) := by
  decide

/-- C17: the code fails the claim.  For the generator built from `begin` and `end` of
`[1, 2, 3]`, three advances put the cursor at the sentinel and a fourth puts it at position 4,
past the sentinel; but the boolean conversion, written `return i != j;` on the private member
`i` of the base class, is ill-formed and has no value in either state: it is not false at the
sentinel and does not yield true after it. -/
theorem delimited_generator_not_latched_ill_formed :
    (make_generator_delimited (seq_begin [1, 2, 3]) (seq_end [1, 2, 3])).inc_n 3
      = make_generator_delimited (seq_end [1, 2, 3]) (seq_end [1, 2, 3]) ∧
    (make_generator_delimited (seq_begin [1, 2, 3]) (seq_end [1, 2, 3])).inc_n 4
      = make_generator_delimited ({ data := [1, 2, 3], pos := 4 } : seq_cursor Nat)
          (seq_end [1, 2, 3]) ∧
    ((make_generator_delimited (seq_begin [1, 2, 3]) (seq_end [1, 2, 3])).inc_n 3).operator_bool
      = none ∧
    ((make_generator_delimited (seq_begin [1, 2, 3]) (seq_end [1, 2, 3])).inc_n 4).operator_bool
      = none ∧
    ((make_generator_delimited (seq_begin [1, 2, 3]) (seq_end [1, 2, 3])).inc_n 4).operator_bool
      ≠ some true := by
  refine ⟨by decide, by decide, rfl, rfl, ?_⟩
  rw [delimited_operator_bool_none]
  exact fun h => Option.noConfusion h

end stdext
